import Mathlib

/-!
# kggg/captcha: the challenge store and the challenge manager

A shallow embedding of `store.go` and `captcha.go`.

* Go `string` values are Lean `String`s; `[]byte` buffers over the ASCII
  alphabet are `List Char`.
* `time.Time` is an `Int`: nanoseconds elapsed since the zero `Time`
  (January 1, year 1, 00:00:00 UTC), so the zero value of a `time.Time`
  field is `0`.  `time.Duration` is an `Int` of nanoseconds in the int64
  range, and `Time.Sub` saturates as the Go library documents.
* `time.Now()` and the outcomes of `math/rand` are explicit inputs.
* A Go map `map[string]Captcha` is a function `String → Option Captcha`.
* A Go `(T, error)` result is a pair of the value and an `Option` error
  (`none` is `nil`); a run-time panic is the `panic` constructor of `Res`.
-/

namespace captcha

/-! ## Results, time and errors -/

/-- Outcome of running a Go function body: it returns a value or panics. -/
inductive Res (α : Type) where
  | ok : α → Res α
  | panic : String → Res α
  deriving Repr, DecidableEq

/-- Sequencing of two computations; a panic propagates. -/
def Res.bind {α β : Type} (r : Res α) (f : α → Res β) : Res β :=
  match r with
  | Res.ok a => f a
  | Res.panic m => Res.panic m

/-- Largest `time.Duration`, `1<<63 - 1` nanoseconds. -/
def maxDuration : Int := 2 ^ 63 - 1

/-- Smallest `time.Duration`, `-1 << 63` nanoseconds. -/
def minDuration : Int := -(2 ^ 63)

/-- Go `t.Sub(u)`: the duration `t - u`, replaced by the maximum (or
minimum) duration when the difference does not fit. -/
def Time.Sub (t u : Int) : Int :=
  if t - u > maxDuration then maxDuration
  else if t - u < minDuration then minDuration
  else t - u

/-- Wrap-around of a Go `int` (64 bit two's complement). -/
def wrapInt64 (x : Int) : Int := (x + 2 ^ 63) % 2 ^ 64 - 2 ^ 63

/-- Errors built by the store (`fmt.Errorf` call sites of `store.go`) and
by the libraries called while rendering. -/
inductive Error where
  | notExisting : String → Error
  | expired : String → Error
  | library : String → Error
  deriving Repr, DecidableEq

/-- Go `err.Error()`: the message carried by an error. -/
def Error.message : Error → String
  | Error.notExisting id => "the " ++ id ++ " not existing"
  | Error.expired id => "the " ++ id ++ " is expired"
  | Error.library m => m

/-! ## Data model -/

/-- Struct `Captcha` of `captcha.go`.  The `Store` field is a reference to
the store, which the embedding passes along as explicit state. -/
structure Captcha where
  Cid : String
  Bs64Data : String
  Code : String
  Len : Int
  StartTime : Int
  deriving Repr, DecidableEq

/-- Struct `MemoryStore` of `store.go`; the embedded mutex is modelled
separately, in the interleaving semantics below. -/
structure MemoryStore where
  Value : String → Option Captcha
  Expiration : Int
  Total : Int

/-- Go `NewMemoryStore(expire)`: an empty map, the given expiration, no saves. -/
def NewMemoryStore (expire : Int) : MemoryStore :=
  { Value := fun _ => none, Expiration := expire, Total := 0 }

/-- Package variable `MemoryStoreMode = NewMemoryStore(180)`: 180 nanoseconds. -/
def MemoryStoreMode : MemoryStore := NewMemoryStore 180

/-- Go `m.Value[id] = captcha`. -/
def mapSet (m : String → Option Captcha) (id : String) (c : Captcha) :
    String → Option Captcha :=
  fun k => if k = id then some c else m k

/-- Go `delete(m.Value, id)`. -/
def mapDelete (m : String → Option Captcha) (id : String) :
    String → Option Captcha :=
  fun k => if k = id then none else m k

/-- Go `(m *MemoryStore) Save`: unconditional assignment, counter bumped,
always a nil error. -/
def MemoryStore.Save (m : MemoryStore) (id : String) (captcha : Captcha) :
    Option Error × MemoryStore :=
  (none, { m with Value := mapSet m.Value id captcha, Total := wrapInt64 (m.Total + 1) })

/-- Go `(m *MemoryStore) Get` run at time `now`: the code and a nil error
for a present, unexpired entry; an expired entry is deleted. -/
def MemoryStore.Get (m : MemoryStore) (id : String) (now : Int) :
    (String × Option Error) × MemoryStore :=
  match m.Value id with
  | none => (("", some (Error.notExisting id)), m)
  | some c =>
    if Time.Sub now c.StartTime > m.Expiration then
      (("", some (Error.expired id)), { m with Value := mapDelete m.Value id })
    else
      ((c.Code, none), m)

/-- Go `(m *MemoryStore) Verify` run at time `now`. -/
def MemoryStore.Verify (m : MemoryStore) (id code : String) (now : Int) :
    Bool × MemoryStore :=
  if id = "" ∨ code = "" then (false, m)
  else
    match m.Get id now with
    | ((_, some _), m1) => (false, m1)
    | ((v, none), m1) => (decide (v ≠ "") && decide (v = code), m1)

/-- Go `(m *MemoryStore) Remove`: delete the key, nil error. -/
def MemoryStore.Remove (m : MemoryStore) (id : String) : Option Error × MemoryStore :=
  (none, { m with Value := mapDelete m.Value id })

/-- Interface `Storer` of `store.go` over a backend state `σ`; `Get` and
`Verify` also receive the clock reading of the call. -/
structure Storer (σ : Type) where
  Save : σ → String → Captcha → Option Error × σ
  Get : σ → String → Int → (String × Option Error) × σ
  Verify : σ → String → String → Int → Bool × σ
  Remove : σ → String → Option Error × σ

/-- The in-process backend as a `Storer`. -/
def memoryStorer : Storer MemoryStore :=
  { Save := MemoryStore.Save, Get := MemoryStore.Get,
    Verify := MemoryStore.Verify, Remove := MemoryStore.Remove }

/-! ## Random source and code generation -/

/-- The `math/rand` source: the raw outcome of every draw, and the number
of draws made so far. -/
structure Rand where
  outcomes : Nat → Nat
  pos : Nat

/-- Go `rand.Intn(n)`: panics for `n <= 0`, otherwise a value of `[0, n)`;
every value of `[0, n)` is the result for some raw outcome. -/
def Rand.Intn (g : Rand) (n : Int) : Res (Int × Rand) :=
  if n ≤ 0 then Res.panic "invalid argument to Intn"
  else Res.ok ((g.outcomes g.pos : Int) % n, { g with pos := g.pos + 1 })

/-- Constant `randString` of `captcha.go`, character for character. -/
def randString : String :=
  "ABCDEFGHIJKLMNOPQRSTUVWXYZadcdefghijklmnopqrstuvwxyz1234567890"

/-- Constant `noisetext` of `captcha.go`. -/
def noisetext : String := ".*^-~"

/-- Constant `W` of `captcha.go`. -/
def W : Int := 120

/-- Constant `H` of `captcha.go`. -/
def H : Int := 80

/-- Go `s[i]` on an ASCII string: the byte at index `i`, a panic when the
index is out of range. -/
def byteAt (s : String) (i : Int) : Res Char :=
  if i < 0 then Res.panic "index out of range"
  else
    match s.data[i.toNat]? with
    | some ch => Res.ok ch
    | none => Res.panic "index out of range"

/-- Body of the loop of `getRandString`, for the `k` iterations left:
`result = append(result, randString[rand.Intn(rangeLen-1)])`. -/
def getRandStringLoop (rangeLen : Int) : Nat → Rand → List Char → Res (List Char × Rand)
  | 0, g, result => Res.ok (result, g)
  | k + 1, g, result =>
    (g.Intn (rangeLen - 1)).bind fun p =>
    (byteAt randString p.1).bind fun ch =>
    getRandStringLoop rangeLen k p.2 (result ++ [ch])

/-- Go `(c *Captcha) getRandString(stringLen)` (the receiver is unused):
`for i := 0; i < stringLen; i++` runs `stringLen` times, and not at all
for `stringLen <= 0`. -/
def Captcha.getRandString (g : Rand) (stringLen : Int) : Res (String × Rand) :=
  (getRandStringLoop randString.length stringLen.toNat g []).bind fun p =>
  Res.ok (String.mk p.1, p.2)

/-- Go `(c *Captcha) setCode`. -/
def Captcha.setCode (c : Captcha) (g : Rand) : Res (Captcha × Rand) :=
  (Captcha.getRandString g c.Len).bind fun p =>
  Res.ok ({ c with Code := p.1 }, p.2)

/-- Identifier made by `uuid.New().String()`: the canonical 36 character
text of a UUID. -/
structure UUID where
  str : String
  len : str.length = 36

/-- Go `NewCaptcha(codelen)` with the UUID drawn for it: only `Cid` and
`Len` are set, every other field keeps its zero value. -/
def NewCaptcha (codelen : Int) (cid : UUID) : Captcha :=
  { Cid := cid.str, Bs64Data := "", Code := "", Len := codelen, StartTime := 0 }

/-! ## Rendering -/

/-- Go `color.RGBA`: four `uint8` channels. -/
structure RGBA where
  R : Int
  G : Int
  B : Int
  A : Int
  deriving Repr, DecidableEq

/-- Go conversion `uint8(x)` of an `int`. -/
def toUint8 (x : Int) : Int := x % 256

/-- Go `(c *CaptchaImage) setRandColor(min, max)` (the receiver is unused). -/
def CaptchaImage.setRandColor (g : Rand) (min max : Int) : Res (RGBA × Rand) :=
  let lo := if min > max then 0 else min
  let hi := if min > max then 255 else max
  (g.Intn (wrapInt64 (hi - lo))).bind fun r =>
  (r.2.Intn (wrapInt64 (hi - lo))).bind fun gr =>
  (gr.2.Intn (wrapInt64 (hi - lo))).bind fun b =>
  (b.2.Intn (wrapInt64 (hi - lo))).bind fun a =>
  Res.ok ({ R := toUint8 (wrapInt64 (r.1 + lo)), G := toUint8 (wrapInt64 (gr.1 + lo)),
            B := toUint8 (wrapInt64 (b.1 + lo)), A := toUint8 (wrapInt64 (a.1 + lo)) }, a.2)

/-- Struct `CaptchaImage`; the floating point settings and the pixel buffer
only influence the pixels drawn and are not represented. -/
structure CaptchaImage where
  Width : Int
  Height : Int
  CodeLen : Int
  deriving Repr, DecidableEq

/-- Go `NewCaptchaImage(width, height, codelen, dpi)`. -/
def NewCaptchaImage (width height codelen : Int) : CaptchaImage :=
  { Width := width, Height := height, CodeLen := codelen }

/-- Outcomes of the calls into the operating system and the font, image and
encoding libraries made while rendering. -/
structure RenderEnv where
  ReadFile : Nat → Option Error
  ParseFont : Nat → Option Error
  noiseDraw : Nat → Option Error
  textDraw : Nat → Option Error
  pngEncode : Except Error (List Nat)
  EncodeToString : List Nat → String

/-- Go `(c *CaptchaImage) setFonts`, for the `k`-th time it is called: the
error of `os.ReadFile` as it is, the error of `freetype.ParseFont` wrapped. -/
def CaptchaImage.setFonts (env : RenderEnv) (k : Nat) : Option Error :=
  match env.ReadFile k with
  | some e => some e
  | none =>
    match env.ParseFont k with
    | some e => some (Error.library ("truetype parse: " ++ e.message))
    | none => none

/-- Loop of `drawBGNoise` over the noise characters left, `i` drawn so far. -/
def noiseLoop (ci : CaptchaImage) (env : RenderEnv) :
    List Char → Nat → Rand → Res (Option Error × Rand)
  | [], _, g => Res.ok (none, g)
  | _ :: rest, i, g =>
    (g.Intn ci.Width).bind fun rw =>
    (rw.2.Intn ci.Height).bind fun rh =>
    (rh.2.Intn 5).bind fun fs =>
    match env.noiseDraw i with
    | some e => Res.ok (some (Error.library ("draw noise: " ++ e.message)), fs.2)
    | none => noiseLoop ci env rest (i + 1) fs.2

/-- Go `(c *CaptchaImage) drawBGNoise(noiseText)`. -/
def CaptchaImage.drawBGNoise (ci : CaptchaImage) (env : RenderEnv) (g : Rand)
    (noiseText : String) : Res (Option Error × Rand) :=
  (g.Intn 7).bind fun raw =>
  match CaptchaImage.setFonts env 0 with
  | some e => Res.ok (some e, raw.2)
  | none => noiseLoop ci env noiseText.data 0 raw.2

/-- Loop of `drawImageText` over the characters of the code left. -/
def textLoop (env : RenderEnv) : List Char → Nat → Option Error
  | [], _ => none
  | _ :: rest, i =>
    match env.textDraw i with
    | some e => some e
    | none => textLoop env rest (i + 1)

/-- Go `(c *CaptchaImage) EncodeB64string(buf)`. -/
def CaptchaImage.EncodeB64string (env : RenderEnv) (buf : List Nat) : String :=
  "data:" ++ "image/png" ++ ";base64," ++ env.EncodeToString buf

/-- Go `(c *CaptchaImage) drawImageText(content)`. -/
def CaptchaImage.drawImageText (ci : CaptchaImage) (env : RenderEnv) (g : Rand)
    (content : String) : Res ((String × Option Error) × Rand) :=
  (CaptchaImage.setRandColor g 0 255).bind fun bg =>
  (ci.drawBGNoise env bg.2 noisetext).bind fun nz =>
  match nz.1 with
  | some e => Res.ok (("", some e), nz.2)
  | none =>
    match CaptchaImage.setFonts env 1 with
    | some e => Res.ok (("", some e), nz.2)
    | none =>
      match textLoop env content.data 0 with
      | some e => Res.ok (("", some e), nz.2)
      | none =>
        match env.pngEncode with
        | Except.error e => Res.ok (("", some e), nz.2)
        | Except.ok buf => Res.ok ((CaptchaImage.EncodeB64string env buf, none), nz.2)

/-! ## Challenge manager -/

/-- What `GenerateCaptcha` leaves behind: the three returned values, the
receiver as updated by `setCode`, the random source and the store. -/
structure Issued (σ : Type) where
  id : String
  b64s : String
  err : Option Error
  captcha : Captcha
  rand : Rand
  store : σ

/-- Go `(c *Captcha) GenerateCaptcha` on a captcha bound to the store `S`. -/
def Captcha.GenerateCaptcha {σ : Type} (S : Storer σ) (c : Captcha) (env : RenderEnv)
    (g : Rand) (st : σ) : Res (Issued σ) :=
  (c.setCode g).bind fun sc =>
  (CaptchaImage.drawImageText (NewCaptchaImage W H sc.1.Len) env sc.2 sc.1.Code).bind fun dr =>
  match dr.1.2 with
  | some e => Res.ok ⟨"", "", some e, sc.1, dr.2, st⟩
  | none =>
    match S.Save st sc.1.Cid sc.1 with
    | (some e, st1) => Res.ok ⟨"", "", some e, sc.1, dr.2, st1⟩
    | (none, st1) => Res.ok ⟨sc.1.Cid, dr.1.1, none, sc.1, dr.2, st1⟩

/-- Go `(c *Captcha) VerifyCaptcha(id, code)` on a captcha bound to the
store `S`, called at time `now`. -/
def Captcha.VerifyCaptcha {σ : Type} (S : Storer σ) (st : σ) (id code : String)
    (now : Int) : Bool × σ :=
  match S.Verify st id code now with
  | (true, st1) => (true, (S.Remove st1 id).2)
  | (false, st1) => (false, st1)

/-- Issue a challenge and, when issuance reports no error, submit the
generated code for the returned id at time `now`: the verdict of
`VerifyCaptcha`, or `none` when issuance failed. -/
def issueThenVerify {σ : Type} (S : Storer σ) (c : Captcha) (env : RenderEnv) (g : Rand)
    (st : σ) (now : Int) : Res (Option Bool) :=
  (c.GenerateCaptcha S env g st).bind fun r =>
  match r.err with
  | some _ => Res.ok none
  | none => Res.ok (some (Captcha.VerifyCaptcha S r.store r.id r.captcha.Code now).1)

/-! ## Sequences of calls on the in-process store -/

/-- One call made on an in-process store, by any caller. -/
inductive StoreOp where
  | save : String → Captcha → StoreOp
  | get : String → Int → StoreOp
  | verify : String → String → Int → StoreOp
  | remove : String → StoreOp
  | verifyCaptcha : String → String → Int → StoreOp

/-- The store after one call. -/
def StoreOp.apply : StoreOp → MemoryStore → MemoryStore
  | StoreOp.save id c, m => (m.Save id c).2
  | StoreOp.get id now, m => (m.Get id now).2
  | StoreOp.verify id code now, m => (m.Verify id code now).2
  | StoreOp.remove id, m => (m.Remove id).2
  | StoreOp.verifyCaptcha id code now, m => (Captcha.VerifyCaptcha memoryStorer m id code now).2

/-- Whether the call is a `Save` under the given id. -/
def StoreOp.savesTo (id : String) : StoreOp → Bool
  | StoreOp.save k _ => decide (k = id)
  | _ => false

/-- The store after a sequence of calls, first call first. -/
def applyOps : List StoreOp → MemoryStore → MemoryStore
  | [], m => m
  | op :: rest, m => applyOps rest (op.apply m)

/-! ## Two concurrent `VerifyCaptcha` calls on the in-process store

The only `Lock`/`Unlock` pairs of `store.go` are the ones opening `Save` and
`Get`; `Verify` takes the lock through `Get` alone and `Remove` never takes
it.  A call of `VerifyCaptcha` is therefore the following sequence of steps,
and a schedule interleaves the steps of two calls. -/

/-- Where a call of `VerifyCaptcha(id, code)` stands. -/
inductive Pc where
  | start : Pc
  | lock : Pc
  | body : Pc
  | got : String → Option Error → Pc
  | remove : Pc
  | done : Bool → Pc
  deriving Repr, DecidableEq

/-- Arguments of a call of `VerifyCaptcha`, and the clock reading its `Get` takes. -/
structure Call where
  id : String
  code : String
  now : Int

/-- The store, the holder of its mutex, and the two calls in flight (the
first call is thread `false`, the second thread `true`). -/
structure Sys where
  store : MemoryStore
  mutex : Option Bool
  pcA : Pc
  pcB : Pc

/-- One step of the call `call` run by thread `me`:
`start` is the guard of `Verify`; `lock` is `m.Lock()` in `Get`, enabled only
while the mutex is free; `body` is the rest of `Get` with its deferred
`Unlock`; `got` is the comparison ending `Verify` and the branch of
`VerifyCaptcha`; `remove` is `Remove`, which asks for no lock. -/
def stepCall (me : Bool) (call : Call) (pc : Pc) (store : MemoryStore)
    (mutex : Option Bool) : Pc × MemoryStore × Option Bool :=
  match pc with
  | Pc.start =>
    if call.id = "" ∨ call.code = "" then (Pc.done false, store, mutex)
    else (Pc.lock, store, mutex)
  | Pc.lock =>
    match mutex with
    | none => (Pc.body, store, some me)
    | some _ => (Pc.lock, store, mutex)
  | Pc.body => (Pc.got (store.Get call.id call.now).1.1 (store.Get call.id call.now).1.2,
      (store.Get call.id call.now).2, none)
  | Pc.got v err =>
    match err with
    | some _ => (Pc.done false, store, mutex)
    | none =>
      if decide (v ≠ "") && decide (v = call.code) then (Pc.remove, store, mutex)
      else (Pc.done false, store, mutex)
  | Pc.remove => (Pc.done true, (store.Remove call.id).2, mutex)
  | Pc.done b => (Pc.done b, store, mutex)

/-- The scheduler lets thread `t` take one step. -/
def Sys.step (callA callB : Call) (s : Sys) (t : Bool) : Sys :=
  match t with
  | false =>
    { s with pcA := (stepCall false callA s.pcA s.store s.mutex).1,
             store := (stepCall false callA s.pcA s.store s.mutex).2.1,
             mutex := (stepCall false callA s.pcA s.store s.mutex).2.2 }
  | true =>
    { s with pcB := (stepCall true callB s.pcB s.store s.mutex).1,
             store := (stepCall true callB s.pcB s.store s.mutex).2.1,
             mutex := (stepCall true callB s.pcB s.store s.mutex).2.2 }

/-- Run a schedule, first step first. -/
def Sys.run (callA callB : Call) : List Bool → Sys → Sys
  | [], s => s
  | t :: rest, s => Sys.run callA callB rest (s.step callA callB t)

/-- Both calls about to start on the given store, mutex free. -/
def Sys.init (m : MemoryStore) : Sys :=
  { store := m, mutex := none, pcA := Pc.start, pcB := Pc.start }

/-! ## Character classes and concrete inputs -/

/-- The returned value of a computation without the state that comes with it. -/
def Res.value {α β : Type} (r : Res (α × β)) : Res α :=
  r.bind fun p => Res.ok p.1

/-- All four channels of the colour lie in `[lo, hi)`. -/
def RGBA.within (lo hi : Int) (c : RGBA) : Prop :=
  (lo ≤ c.R ∧ c.R < hi) ∧ (lo ≤ c.G ∧ c.G < hi) ∧ (lo ≤ c.B ∧ c.B < hi) ∧ (lo ≤ c.A ∧ c.A < hi)

/-- An ASCII digit, upper-case letter or lower-case letter. -/
def isAlnum (ch : Char) : Bool := ch.isDigit || ch.isUpper || ch.isLower

/-- The 62 alphanumeric symbols: digits, upper-case and lower-case letters. -/
def alnum62 : List Char :=
  "0123456789ABCDEFGHIJKLMNOPQRSTUVWXYZabcdefghijklmnopqrstuvwxyz".data

/-- A UUID text. -/
def uuid0 : UUID := ⟨"123e4567-e89b-12d3-a456-426614174000", by decide⟩

/-- A rendering environment in which every external call succeeds. -/
def envOk : RenderEnv :=
  { ReadFile := fun _ => none, ParseFont := fun _ => none, noiseDraw := fun _ => none,
    textDraw := fun _ => none, pngEncode := Except.ok [137, 80, 78, 71],
    EncodeToString := fun _ => "iVBORw==" }

/-- A rendering environment in which the font file cannot be read. -/
def envNoFont : RenderEnv :=
  { envOk with ReadFile := fun _ => some (Error.library "open ./font/Arcade_Book.ttf: no such file or directory") }

/-- A random source. -/
def rand0 : Rand := { outcomes := fun k => 7 * k + 3, pos := 0 }

/-- Midnight UTC of 4 November 2026, in nanoseconds since the zero `Time`. -/
def now2026 : Int := 63929347200000000000

/-- A challenge with the given id, code and start time. -/
def challenge (cid code : String) (start : Int) : Captcha :=
  { Cid := cid, Bs64Data := "", Code := code, Len := code.length, StartTime := start }

/-- A store with a TTL of three minutes holding one challenge, code `xY7k`,
started at `now2026`, under `id1`. -/
def storeLive : MemoryStore :=
  ((NewMemoryStore 180000000000).Save "id1" (challenge "id1" "xY7k" now2026)).2

/-- A store with the default TTL holding one challenge whose code is
empty, as issued for code length 0, under `id1`. -/
def storeEmptyCode : MemoryStore :=
  (MemoryStoreMode.Save "id1" (challenge "id1" "" 0)).2

/-- A store with a TTL of three minutes holding under `id1` a challenge
whose start time is the zero `Time`, and under `id2` a live challenge. -/
def storeExpired : MemoryStore :=
  (((NewMemoryStore 180000000000).Save "id1" (challenge "id1" "xY7k" 0)).2.Save "id2"
    (challenge "id2" "Qq2Z" now2026)).2

/-- A store made by `NewMemoryStore(math.MaxInt64)` holding under `id1` a
challenge with code `xY7k` whose start time is the zero `Time`, which is the
start time `GenerateCaptcha` stores. -/
def storeMaxTTL : MemoryStore :=
  ((NewMemoryStore maxDuration).Save "id1" (challenge "id1" "xY7k" 0)).2

/-- A store whose `Save` always fails and changes nothing. -/
def failingStorer : Storer Unit :=
  { Save := fun st _ _ => (some (Error.library "redis set error"), st),
    Get := fun st id _ => (("", some (Error.notExisting id)), st),
    Verify := fun st _ _ _ => (false, st),
    Remove := fun st _ => (none, st) }

/-! ## The in-process store: lemmas -/

theorem Verify_fst_eq_true_iff (m : MemoryStore) (id answer : String) (now : Int) :
    (m.Verify id answer now).1 = true ↔
      id ≠ "" ∧ answer ≠ "" ∧
        ∃ c, m.Value id = some c ∧ Time.Sub now c.StartTime ≤ m.Expiration ∧ c.Code = answer := by
  unfold MemoryStore.Verify MemoryStore.Get
  by_cases hid : id = ""
  · simp [hid]
  by_cases hans : answer = ""
  · simp [hans]
  cases hv : m.Value id with
  | none => simp [hid, hans]
  | some c =>
    by_cases hexp : Time.Sub now c.StartTime > m.Expiration
    · simp [hid, hans, hexp]
    · have hle : Time.Sub now c.StartTime ≤ m.Expiration := not_lt.mp hexp
      simp only [hid, hans, or_self, if_false, hexp, ne_eq, not_false_eq_true, true_and,
        Option.some.injEq, exists_eq_left', hle, Bool.and_eq_true, decide_eq_true_eq]
      constructor
      · intro h
        exact h.2
      · intro h
        exact ⟨by rw [h]; exact hans, h⟩

theorem Time_Sub_eq_sub (t u : Int) (h0 : minDuration ≤ t - u) (h1 : t - u ≤ maxDuration) :
    Time.Sub t u = t - u := by
  unfold Time.Sub
  simp [not_lt.mpr h0, not_lt.mpr h1]

theorem Time_Sub_le_iff (t u E : Int) (h0 : minDuration ≤ E) (h1 : E ≤ maxDuration) :
    Time.Sub t u ≤ E ↔ (t - u ≤ E ∨ E = maxDuration) := by
  simp only [Time.Sub, maxDuration, minDuration] at *
  split
  · omega
  · split <;> omega

theorem Time_Sub_gt_of_sub_gt (t u E : Int) (h1 : E < maxDuration) (h : t - u > E) :
    Time.Sub t u > E := by
  simp only [Time.Sub, maxDuration, minDuration] at *
  split
  · omega
  · split <;> omega

theorem Get_store_value (m : MemoryStore) (id : String) (now : Int) (k : String) :
    (m.Get id now).2.Value k = m.Value k ∨
      (k = id ∧ (m.Get id now).2.Value k = none) := by
  unfold MemoryStore.Get
  cases hv : m.Value id with
  | none => simp
  | some c =>
    by_cases hexp : Time.Sub now c.StartTime > m.Expiration
    · by_cases hk : k = id
      · simp [hexp, mapDelete, hk]
      · simp [hexp, mapDelete, hk]
    · simp [hexp]

theorem Verify_store_value (m : MemoryStore) (id code : String) (now : Int) (k : String) :
    (m.Verify id code now).2.Value k = m.Value k ∨
      (k = id ∧ (m.Verify id code now).2.Value k = none) := by
  unfold MemoryStore.Verify
  by_cases hg : id = "" ∨ code = ""
  · simp [hg]
  · have h := Get_store_value m id now k
    rcases hget : m.Get id now with ⟨⟨v, e⟩, m1⟩
    rw [hget] at h
    cases e <;> simpa [hg] using h

theorem VerifyCaptcha_store_value (m : MemoryStore) (id code : String) (now : Int)
    (k : String) :
    (Captcha.VerifyCaptcha memoryStorer m id code now).2.Value k = m.Value k ∨
      (k = id ∧ (Captcha.VerifyCaptcha memoryStorer m id code now).2.Value k = none) := by
  unfold Captcha.VerifyCaptcha
  have h := Verify_store_value m id code now k
  simp only [memoryStorer]
  rcases hver : m.Verify id code now with ⟨b, m1⟩
  rw [hver] at h
  cases b
  · simpa using h
  · by_cases hk : k = id
    · right
      simp [MemoryStore.Remove, mapDelete, hk]
    · rcases h with h | h
      · left
        simpa [MemoryStore.Remove, mapDelete, hk] using h
      · exact absurd h.1 hk

theorem VerifyCaptcha_true_removes (m : MemoryStore) (id code : String) (now : Int)
    (h : (Captcha.VerifyCaptcha memoryStorer m id code now).1 = true) :
    (Captcha.VerifyCaptcha memoryStorer m id code now).2.Value id = none := by
  unfold Captcha.VerifyCaptcha at h ⊢
  simp only [memoryStorer] at h ⊢
  rcases hver : m.Verify id code now with ⟨b, m1⟩
  rw [hver] at h
  cases b
  · simp at h
  · simp [MemoryStore.Remove, mapDelete]

theorem VerifyCaptcha_fst (m : MemoryStore) (id code : String) (now : Int) :
    (Captcha.VerifyCaptcha memoryStorer m id code now).1 = (m.Verify id code now).1 := by
  unfold Captcha.VerifyCaptcha
  simp only [memoryStorer]
  rcases m.Verify id code now with ⟨b, m1⟩
  cases b <;> rfl

theorem apply_keeps_absent (op : StoreOp) (id : String) (m : MemoryStore)
    (hop : op.savesTo id = false) (habs : m.Value id = none) :
    (op.apply m).Value id = none := by
  cases op with
  | save k c =>
    have hk : ¬ id = k := by
      intro h
      simp [StoreOp.savesTo, h] at hop
    simp [StoreOp.apply, MemoryStore.Save, mapSet, hk, habs]
  | get k now =>
    rcases Get_store_value m k now id with h | h
    · simpa [StoreOp.apply, habs] using h
    · exact h.2
  | verify k code now =>
    rcases Verify_store_value m k code now id with h | h
    · simpa [StoreOp.apply, habs] using h
    · exact h.2
  | remove k =>
    by_cases hk : id = k <;> simp [StoreOp.apply, MemoryStore.Remove, mapDelete, hk, habs]
  | verifyCaptcha k code now =>
    rcases VerifyCaptcha_store_value m k code now id with h | h
    · simpa [StoreOp.apply, habs] using h
    · exact h.2

theorem applyOps_keeps_absent (ops : List StoreOp) (id : String) :
    ∀ m : MemoryStore, (∀ op ∈ ops, op.savesTo id = false) → m.Value id = none →
      (applyOps ops m).Value id = none := by
  induction ops with
  | nil => intro m _ habs; exact habs
  | cons op rest ih =>
    intro m hops habs
    exact ih (op.apply m) (fun o ho => hops o (List.mem_cons_of_mem op ho))
      (apply_keeps_absent op id m (hops op (List.mem_cons_self op rest)) habs)

/-! ## The in-process store: verification, single use, expiry, overwrite -/

/-- Claim C3, counterexample: on a store made by `NewMemoryStore(math.MaxInt64)`
that holds under `id1` the code `xY7k` with the zero start time, `Verify`
with that code on 4 November 2026 returns true, although the difference
`now - StartTime` exceeds `Expiration`, so that no entry for `id1` meets
the conditions of the claim. -/
theorem Verify_true_beyond_Expiration :
    storeMaxTTL.Value "id1" = some (challenge "id1" "xY7k" 0) ∧
    now2026 - (challenge "id1" "xY7k" 0).StartTime > storeMaxTTL.Expiration ∧
    (storeMaxTTL.Verify "id1" "xY7k" now2026).1 = true ∧
    ¬ ("id1" ≠ "" ∧ "xY7k" ≠ "" ∧
        ∃ c, storeMaxTTL.Value "id1" = some c ∧
          now2026 - c.StartTime ≤ storeMaxTTL.Expiration ∧ c.Code = "xY7k") := by
  refine ⟨by decide, by decide, by decide, ?_⟩
  rintro ⟨_, _, c, hc, hle, _⟩
  have hv : storeMaxTTL.Value "id1" = some (challenge "id1" "xY7k" 0) := by decide
  rw [hv] at hc
  cases hc
  exact absurd hle (by decide)

/-- Claim C3, amended: on a store whose `Expiration` is a `Duration`,
`MemoryStore.Verify(id, answer)` at time `now` returns true exactly when
`id` and `answer` are non-empty and the store holds an entry for `id` whose
`Code` equals `answer` and whose age `now - StartTime` does not exceed
`Expiration`, or whose age is arbitrary when `Expiration` is the maximum
`Duration`; an empty `id` or an empty `answer` yields false whatever the
store holds. -/
theorem MemoryStore_Verify_iff_saturating (m : MemoryStore) (id answer : String)
    (now : Int) (hE : minDuration ≤ m.Expiration ∧ m.Expiration ≤ maxDuration) :
    ((m.Verify id answer now).1 = true ↔
      id ≠ "" ∧ answer ≠ "" ∧
        ∃ c, m.Value id = some c ∧
          (now - c.StartTime ≤ m.Expiration ∨ m.Expiration = maxDuration) ∧
          c.Code = answer) ∧
    (id = "" ∨ answer = "" → (m.Verify id answer now).1 = false) := by
  have hiff : (m.Verify id answer now).1 = true ↔
      id ≠ "" ∧ answer ≠ "" ∧
        ∃ c, m.Value id = some c ∧
          (now - c.StartTime ≤ m.Expiration ∨ m.Expiration = maxDuration) ∧
          c.Code = answer := by
    rw [Verify_fst_eq_true_iff]
    constructor
    · rintro ⟨h1, h2, c, hc, hle, hcode⟩
      exact ⟨h1, h2, c, hc, (Time_Sub_le_iff _ _ _ hE.1 hE.2).mp hle, hcode⟩
    · rintro ⟨h1, h2, c, hc, hle, hcode⟩
      exact ⟨h1, h2, c, hc, (Time_Sub_le_iff _ _ _ hE.1 hE.2).mpr hle, hcode⟩
  refine ⟨hiff, ?_⟩
  intro h
  cases hb : (m.Verify id answer now).1 with
  | false => rfl
  | true =>
    have h3 := hiff.mp hb
    rcases h with h | h
    · exact absurd h h3.1
    · exact absurd h h3.2.1

/-- Claim C3, amended, at two stores: on a store with a TTL of three
minutes holding a live challenge the right code is accepted and an empty
answer is rejected; on a store with the maximum `Duration` as TTL the code
of an entry with the zero start time is accepted in 2026. -/
theorem MemoryStore_Verify_iff_saturating_witness :
    (storeLive.Verify "id1" "xY7k" (now2026 + 1000)).1 = true ∧
      (storeLive.Verify "id1" "" (now2026 + 1000)).1 = false ∧
      (storeMaxTTL.Verify "id1" "xY7k" now2026).1 = true :=
  ⟨(MemoryStore_Verify_iff_saturating storeLive "id1" "xY7k" (now2026 + 1000)
        ⟨by decide, by decide⟩).1.mpr
      ⟨by decide, by decide, challenge "id1" "xY7k" now2026, by decide,
        Or.inl (by decide), by decide⟩,
    (MemoryStore_Verify_iff_saturating storeLive "id1" "" (now2026 + 1000)
        ⟨by decide, by decide⟩).2 (Or.inr rfl),
    (MemoryStore_Verify_iff_saturating storeMaxTTL "id1" "xY7k" now2026
        ⟨by decide, by decide⟩).1.mpr
      ⟨by decide, by decide, challenge "id1" "xY7k" 0, by decide,
        Or.inr (by decide), by decide⟩⟩

/-- Claim C2: once `VerifyCaptcha(id, answer)` has returned true on an
in-process store, every later `VerifyCaptcha(id, answer')` returns false,
whatever the answer and the time, after any sequence of store calls none
of which is a `Save` under `id`. -/
theorem VerifyCaptcha_single_use (m : MemoryStore) (id answer : String) (now : Int)
    (h : (Captcha.VerifyCaptcha memoryStorer m id answer now).1 = true)
    (ops : List StoreOp) (hops : ∀ op ∈ ops, op.savesTo id = false)
    (answer' : String) (now' : Int) :
    (Captcha.VerifyCaptcha memoryStorer
      (applyOps ops (Captcha.VerifyCaptcha memoryStorer m id answer now).2)
      id answer' now').1 = false := by
  have habs := applyOps_keeps_absent ops id _ hops (VerifyCaptcha_true_removes m id answer now h)
  rw [VerifyCaptcha_fst]
  cases hb : (MemoryStore.Verify
      (applyOps ops (Captcha.VerifyCaptcha memoryStorer m id answer now).2) id answer' now').1 with
  | false => rfl
  | true =>
    obtain ⟨_, _, c, hc, _⟩ := (Verify_fst_eq_true_iff _ id answer' now').mp hb
    rw [habs] at hc
    exact absurd hc (by simp)

/-- Claim C2 at a store holding a live challenge: the first submission of
the code succeeds, and after a wrong guess for it and a `Save` under
another id the same code is rejected. -/
theorem VerifyCaptcha_single_use_witness :
    (Captcha.VerifyCaptcha memoryStorer storeLive "id1" "xY7k" (now2026 + 5)).1 = true ∧
    (Captcha.VerifyCaptcha memoryStorer
      (applyOps [StoreOp.verifyCaptcha "id1" "nope" (now2026 + 6),
          StoreOp.save "id2" (challenge "id2" "Qq2Z" (now2026 + 7))]
        (Captcha.VerifyCaptcha memoryStorer storeLive "id1" "xY7k" (now2026 + 5)).2)
      "id1" "xY7k" (now2026 + 8)).1 = false :=
  ⟨by decide,
    VerifyCaptcha_single_use storeLive "id1" "xY7k" (now2026 + 5) (by decide)
      [StoreOp.verifyCaptcha "id1" "nope" (now2026 + 6),
        StoreOp.save "id2" (challenge "id2" "Qq2Z" (now2026 + 7))]
      (by decide) "xY7k" (now2026 + 8)⟩

/-- Claim C4, counterexample, at two entries older than the `Expiration`
of their store.  The first has an empty code (a challenge of length 0) on
the default store: `Verify` with that code returns false at its guard, the
entry is still in the store afterwards, and the following `Get` fails with
the expired error, not with the not-found error.  The second sits on a
store made by `NewMemoryStore(math.MaxInt64)`: `Verify` with its code
returns true and the entry is still in the store afterwards. -/
theorem Verify_old_entry_kept :
    (storeEmptyCode.Value "id1" = some (challenge "id1" "" 0) ∧
      now2026 - (challenge "id1" "" 0).StartTime > storeEmptyCode.Expiration ∧
      (storeEmptyCode.Verify "id1" (challenge "id1" "" 0).Code now2026).1 = false ∧
      (storeEmptyCode.Verify "id1" (challenge "id1" "" 0).Code now2026).2.Value "id1"
        = some (challenge "id1" "" 0) ∧
      ((storeEmptyCode.Verify "id1" (challenge "id1" "" 0).Code now2026).2.Get "id1"
          now2026).1 = ("", some (Error.expired "id1")) ∧
      ¬ ((storeEmptyCode.Verify "id1" (challenge "id1" "" 0).Code now2026).2.Value "id1"
            = none ∧
        ((storeEmptyCode.Verify "id1" (challenge "id1" "" 0).Code now2026).2.Get "id1"
            now2026).1.2 = some (Error.notExisting "id1"))) ∧
    (storeMaxTTL.Value "id1" = some (challenge "id1" "xY7k" 0) ∧
      now2026 - (challenge "id1" "xY7k" 0).StartTime > storeMaxTTL.Expiration ∧
      (storeMaxTTL.Verify "id1" (challenge "id1" "xY7k" 0).Code now2026).1 = true ∧
      (storeMaxTTL.Verify "id1" (challenge "id1" "xY7k" 0).Code now2026).2.Value "id1"
        = some (challenge "id1" "xY7k" 0)) := by
  decide

/-- Claim C4, amended: on a store whose `Expiration` is below the maximum
`Duration`, for an entry under `id` whose age `now - StartTime` exceeds
`Expiration`, `Verify(id, code)` with the entry's code returns false.  When
`id` and the code are both non-empty the call removes the entry for `id`,
leaves every other entry unchanged, and a subsequent `Get(id)` fails with
the not-found error.  When `id` or the code is empty the call leaves the
store as it was, and a subsequent `Get(id)`, the age of the entry still
exceeding `Expiration`, fails with the expired error. -/
theorem Verify_expired_removes_entry (m : MemoryStore) (id : String) (c : Captcha)
    (now : Int) (hentry : m.Value id = some c) (hE : m.Expiration < maxDuration)
    (hage : now - c.StartTime > m.Expiration) :
    (m.Verify id c.Code now).1 = false ∧
    (id ≠ "" → c.Code ≠ "" →
      (m.Verify id c.Code now).2.Value id = none ∧
      (∀ k, k ≠ id → (m.Verify id c.Code now).2.Value k = m.Value k) ∧
      ∀ now', ((m.Verify id c.Code now).2.Get id now').1
        = ("", some (Error.notExisting id))) ∧
    (id = "" ∨ c.Code = "" →
      (m.Verify id c.Code now).2.Value = m.Value ∧
      ∀ now', now' - c.StartTime > m.Expiration →
        ((m.Verify id c.Code now).2.Get id now').1 = ("", some (Error.expired id))) := by
  have hexp : Time.Sub now c.StartTime > m.Expiration :=
    Time_Sub_gt_of_sub_gt now c.StartTime m.Expiration hE hage
  refine ⟨?_, ?_, ?_⟩
  · cases hb : (m.Verify id c.Code now).1 with
    | false => rfl
    | true =>
      obtain ⟨_, _, c', hc', hle, _⟩ := (Verify_fst_eq_true_iff m id c.Code now).mp hb
      rw [hentry] at hc'
      cases hc'
      exact absurd hexp (not_lt.mpr hle)
  · intro hid hcode
    have hstore : (m.Verify id c.Code now).2 = { m with Value := mapDelete m.Value id } := by
      simp [MemoryStore.Verify, MemoryStore.Get, hid, hcode, hentry, hexp]
    rw [hstore]
    refine ⟨by simp [mapDelete], ?_, ?_⟩
    · intro k hk
      simp [mapDelete, hk]
    · intro now'
      simp [MemoryStore.Get, mapDelete]
  · intro hempty
    have hstore : (m.Verify id c.Code now).2 = m := by
      simp [MemoryStore.Verify, hempty]
    rw [hstore]
    refine ⟨rfl, ?_⟩
    intro now' hage'
    have hexp' : Time.Sub now' c.StartTime > m.Expiration :=
      Time_Sub_gt_of_sub_gt now' c.StartTime m.Expiration hE hage'
    simp [MemoryStore.Get, hentry, hexp']

/-- Claim C4, amended, at a store with a TTL of three minutes holding one
challenge older than that and one other challenge: the old entry goes, the
other one stays. -/
theorem Verify_expired_removes_entry_witness :
    (storeExpired.Verify "id1" "xY7k" now2026).1 = false ∧
    (storeExpired.Verify "id1" "xY7k" now2026).2.Value "id1" = none ∧
    (storeExpired.Verify "id1" "xY7k" now2026).2.Value "id2" = storeExpired.Value "id2" ∧
    ((storeExpired.Verify "id1" "xY7k" now2026).2.Get "id1" (now2026 + 1)).1
      = ("", some (Error.notExisting "id1")) :=
  have h := Verify_expired_removes_entry storeExpired "id1" (challenge "id1" "xY7k" 0) now2026
    (by decide) (by decide) (by decide)
  ⟨h.1, (h.2.1 (by decide) (by decide)).1,
    (h.2.1 (by decide) (by decide)).2.1 "id2" (by decide),
    (h.2.1 (by decide) (by decide)).2.2 (now2026 + 1)⟩

theorem Get_after_Save (m : MemoryStore) (id : String) (c2 : Captcha) (now : Int) :
    ((m.Save id c2).2.Get id now).1 =
      if Time.Sub now c2.StartTime > m.Expiration then ("", some (Error.expired id))
      else (c2.Code, none) := by
  by_cases h : Time.Sub now c2.StartTime > m.Expiration <;>
    simp [MemoryStore.Save, MemoryStore.Get, mapSet, h]

/-- Claim C7, the code at the failing input: a store holds the live
challenge `xY7k` under `id1`, and `Get` returns that code; after `Save` of
a challenge with code `Qq2Z` under the same id, `Get` within the TTL
returns `Qq2Z`. -/
theorem Save_overwrites_live_entry :
    (storeLive.Get "id1" (now2026 + 1000)).1 = ("xY7k", none) ∧
    ((storeLive.Save "id1" (challenge "id1" "Qq2Z" (now2026 + 500))).2.Get "id1" (now2026 + 1000)).1
      = ("Qq2Z", none) := by
  decide

/-! ## Code generation and colours -/

theorem Intn_pos (g : Rand) (n : Int) (hn : 0 < n) :
    g.Intn n = Res.ok ((g.outcomes g.pos : Int) % n, { g with pos := g.pos + 1 }) := by
  unfold Rand.Intn
  simp [not_le.mpr hn]

theorem wrapInt64_of_small (x : Int) (h0 : -1000 ≤ x) (h1 : x ≤ 1000) : wrapInt64 x = x := by
  unfold wrapInt64
  omega

theorem randString_all_alnum : ∀ ch ∈ randString.data, isAlnum ch = true := by
  decide

theorem byteAt_randString (i : Int) (h0 : 0 ≤ i) (h1 : i < 61) :
    ∃ ch, byteAt randString i = Res.ok ch ∧ isAlnum ch = true ∧
      ch ∈ randString.data.take 61 := by
  have hlen : randString.data.length = 62 := by decide
  have hi : i.toNat < randString.data.length := by omega
  refine ⟨randString.data[i.toNat], ?_, ?_, ?_⟩
  · unfold byteAt
    simp [not_lt.mpr h0, List.getElem?_eq_getElem hi]
  · exact randString_all_alnum _ (List.getElem_mem hi)
  · have hi2 : i.toNat < (randString.data.take 61).length := by
      rw [List.length_take]
      omega
    have := List.getElem_mem hi2
    rwa [List.getElem_take] at this

theorem getRandStringLoop_spec (k : Nat) :
    ∀ (g : Rand) (acc : List Char), (∀ ch ∈ acc, isAlnum ch = true) →
      ∃ out g', getRandStringLoop randString.length k g acc = Res.ok (out, g') ∧
        out.length = acc.length + k ∧ ∀ ch ∈ out, isAlnum ch = true := by
  induction k with
  | zero =>
    intro g acc hacc
    exact ⟨acc, g, rfl, rfl, hacc⟩
  | succ k ih =>
    intro g acc hacc
    have hrange : ((randString.length : Nat) : Int) - 1 = 61 := by decide
    have hr0 : 0 ≤ (g.outcomes g.pos : Int) % 61 := Int.emod_nonneg _ (by decide)
    have hr1 : (g.outcomes g.pos : Int) % 61 < 61 := Int.emod_lt_of_pos _ (by decide)
    obtain ⟨ch, hch, hal, _⟩ := byteAt_randString _ hr0 hr1
    obtain ⟨out, g', hout, hlen, hall⟩ := ih { g with pos := g.pos + 1 } (acc ++ [ch]) (by
      intro x hx
      rcases List.mem_append.mp hx with hx | hx
      · exact hacc x hx
      · rw [List.mem_singleton.mp hx]
        exact hal)
    refine ⟨out, g', ?_, ?_, hall⟩
    · rw [getRandStringLoop, hrange, Intn_pos g 61 (by decide)]
      simp only [Res.bind, hch]
      exact hout
    · rw [hlen, List.length_append, List.length_singleton]
      omega

/-- Claim C5: for every `L >= 0` and every random source, `getRandString(L)`
returns, without a panic, a string of exactly `L` characters, each an ASCII
digit, upper-case letter or lower-case letter; for `L = 0` it is the empty
string. -/
theorem getRandString_length_alnum (g : Rand) (L : Int) (hL : 0 ≤ L) :
    ∃ s g', Captcha.getRandString g L = Res.ok (s, g') ∧ (s.length : Int) = L ∧
      (∀ ch ∈ s.data, isAlnum ch = true) ∧ (L = 0 → s = "") := by
  obtain ⟨out, g', hout, hlen, hall⟩ := getRandStringLoop_spec L.toNat g [] (by simp)
  refine ⟨String.mk out, g', ?_, ?_, hall, ?_⟩
  · unfold Captcha.getRandString
    rw [hout]
    rfl
  · simp only [String.length, hlen, List.length_nil]
    omega
  · intro h0
    have : out.length = 0 := by
      rw [hlen, h0]
      rfl
    rw [List.length_eq_zero.mp this]

/-- Claim C5 at length 6: the generator returns six alphanumeric characters. -/
theorem getRandString_length_alnum_witness :
    (0 : Int) ≤ 6 ∧ ∃ s g', Captcha.getRandString rand0 6 = Res.ok (s, g') ∧
      (s.length : Int) = 6 ∧ (∀ ch ∈ s.data, isAlnum ch = true) ∧ ((6 : Int) = 0 → s = "") :=
  ⟨by decide, getRandString_length_alnum rand0 6 (by decide)⟩

theorem getRandString_one (g : Rand) :
    ∃ ch, ch ∈ randString.data.take 61 ∧
      Res.value (Captcha.getRandString g 1) = Res.ok (String.mk [ch]) := by
  have hrange : ((randString.length : Nat) : Int) - 1 = 61 := by decide
  have hr0 : 0 ≤ (g.outcomes g.pos : Int) % 61 := Int.emod_nonneg _ (by decide)
  have hr1 : (g.outcomes g.pos : Int) % 61 < 61 := Int.emod_lt_of_pos _ (by decide)
  obtain ⟨ch, hch, _, hmem⟩ := byteAt_randString _ hr0 hr1
  refine ⟨ch, hmem, ?_⟩
  have h1 : (1 : Int).toNat = 0 + 1 := by decide
  unfold Res.value Captcha.getRandString
  rw [h1, getRandStringLoop, hrange, Intn_pos g 61 (by decide)]
  simp only [Res.bind, hch, getRandStringLoop, List.nil_append]

/-- Claim C6, the code at the failing symbols: the alphabet `randString`
has 62 entries but only 61 distinct ones, `d` standing twice and `b`
nowhere, and the index drawn is below 61, so that for no random source
does `getRandString(1)` return `0` (the entry at index 61) or `b`, both of
them among the 62 alphanumeric symbols. -/
theorem getRandString_one_misses_symbols :
    alnum62.length = 62 ∧ alnum62.Nodup ∧ (∀ ch ∈ alnum62, isAlnum ch = true) ∧
    randString.length = 62 ∧ ¬ randString.data.Nodup ∧
    '0' ∈ alnum62 ∧ 'b' ∈ alnum62 ∧ 'b' ∉ randString.data ∧
    ∀ g : Rand, Res.value (Captcha.getRandString g 1) ≠ Res.ok "0" ∧
      Res.value (Captcha.getRandString g 1) ≠ Res.ok "b" := by
  refine ⟨by decide, by decide, by decide, by decide, by decide, by decide, by decide,
    by decide, ?_⟩
  intro g
  obtain ⟨ch, hmem, hres⟩ := getRandString_one g
  have hno : ∀ x ∈ randString.data.take 61, x ≠ '0' ∧ x ≠ 'b' := by decide
  rw [hres]
  constructor
  · intro h
    have h2 : String.mk [ch] = "0" := Res.ok.inj h
    have h3 : ch = '0' := by
      have := congrArg String.data h2
      simpa using this
    exact (hno ch hmem).1 h3
  · intro h
    have h2 : String.mk [ch] = "b" := Res.ok.inj h
    have h3 : ch = 'b' := by
      have := congrArg String.data h2
      simpa using this
    exact (hno ch hmem).2 h3

theorem setRandColor_eval (g : Rand) (min max lo hi : Int)
    (hlo : lo = if min > max then 0 else min) (hhi : hi = if min > max then 255 else max)
    (hpos : 0 < hi - lo) (hsmall : hi - lo ≤ 1000) :
    CaptchaImage.setRandColor g min max = Res.ok
      ({ R := toUint8 (wrapInt64 ((g.outcomes g.pos : Int) % (hi - lo) + lo)),
         G := toUint8 (wrapInt64 ((g.outcomes (g.pos + 1) : Int) % (hi - lo) + lo)),
         B := toUint8 (wrapInt64 ((g.outcomes (g.pos + 1 + 1) : Int) % (hi - lo) + lo)),
         A := toUint8 (wrapInt64 ((g.outcomes (g.pos + 1 + 1 + 1) : Int) % (hi - lo) + lo)) },
        { g with pos := g.pos + 1 + 1 + 1 + 1 }) := by
  have hw : wrapInt64 (hi - lo) = hi - lo := wrapInt64_of_small _ (by omega) hsmall
  unfold CaptchaImage.setRandColor
  simp only [← hlo, ← hhi, hw, Intn_pos _ _ hpos, Res.bind]

/-- Claim C10: for `min`, `max` in `0..255` with `min != max` and every
random source, `setRandColor(min, max)` returns, without a panic, a colour
whose four channels lie in `[min, max)` when `min < max` and in `[0, 255)`
when `min > max`. -/
theorem setRandColor_channels_in_range (g : Rand) (min max : Int)
    (hmin : 0 ≤ min ∧ min ≤ 255) (hmax : 0 ≤ max ∧ max ≤ 255) (hne : min ≠ max) :
    ∃ col g', CaptchaImage.setRandColor g min max = Res.ok (col, g') ∧
      (min < max → RGBA.within min max col) ∧ (min > max → RGBA.within 0 255 col) := by
  obtain ⟨lo, hi, hlo, hhi, hlt, h0, h255⟩ : ∃ lo hi : Int,
      lo = (if min > max then 0 else min) ∧ hi = (if min > max then 255 else max) ∧
      lo < hi ∧ 0 ≤ lo ∧ hi ≤ 255 := by
    by_cases h : min > max
    · exact ⟨0, 255, by simp [h], by simp [h], by decide, le_refl 0, le_refl 255⟩
    · exact ⟨min, max, by simp [h], by simp [h], by omega, hmin.1, hmax.2⟩
  have hpos : 0 < hi - lo := by omega
  have key : ∀ n : Nat, lo ≤ toUint8 (wrapInt64 ((n : Int) % (hi - lo) + lo)) ∧
      toUint8 (wrapInt64 ((n : Int) % (hi - lo) + lo)) < hi := by
    intro n
    have a0 := Int.emod_nonneg (n : Int) (ne_of_gt hpos)
    have a1 := Int.emod_lt_of_pos (n : Int) hpos
    rw [wrapInt64_of_small _ (by omega) (by omega)]
    unfold toUint8
    omega
  refine ⟨_, _, setRandColor_eval g min max lo hi hlo hhi hpos (by omega), ?_, ?_⟩
  · intro h
    have e1 : lo = min := by rw [hlo]; simp [not_lt.mpr (le_of_lt h)]
    have e2 : hi = max := by rw [hhi]; simp [not_lt.mpr (le_of_lt h)]
    rw [← e1, ← e2]
    exact ⟨key _, key _, key _, key _⟩
  · intro h
    have e1 : lo = 0 := by rw [hlo]; simp [h]
    have e2 : hi = 255 := by rw [hhi]; simp [h]
    rw [← e1, ← e2]
    exact ⟨key _, key _, key _, key _⟩

/-- Claim C10 at `min = 200`, `max = 10`: the call returns a colour. -/
theorem setRandColor_channels_in_range_witness :
    ∃ col g', CaptchaImage.setRandColor rand0 200 10 = Res.ok (col, g') ∧
      ((200 : Int) < 10 → RGBA.within 200 10 col) ∧ ((200 : Int) > 10 → RGBA.within 0 255 col) :=
  setRandColor_channels_in_range rand0 200 10 (by decide) (by decide) (by decide)

/-! ## Issuance -/

theorem getRandString_total (g : Rand) (L : Int) :
    ∃ s g', Captcha.getRandString g L = Res.ok (s, g') := by
  obtain ⟨out, g', hout, _, _⟩ := getRandStringLoop_spec L.toNat g [] (by simp)
  refine ⟨String.mk out, g', ?_⟩
  unfold Captcha.getRandString
  rw [hout]
  rfl

theorem setRandColor_full_range (g : Rand) :
    ∃ col g', CaptchaImage.setRandColor g 0 255 = Res.ok (col, g') :=
  ⟨_, _, setRandColor_eval g 0 255 0 255 (by decide) (by decide) (by decide) (by decide)⟩

theorem noiseLoop_total (ci : CaptchaImage) (env : RenderEnv) (hw : 0 < ci.Width)
    (hh : 0 < ci.Height) (chars : List Char) :
    ∀ (i : Nat) (g : Rand), ∃ e g', noiseLoop ci env chars i g = Res.ok (e, g') := by
  induction chars with
  | nil =>
    intro i g
    exact ⟨none, g, rfl⟩
  | cons ch rest ih =>
    intro i g
    unfold noiseLoop
    simp only [Intn_pos _ _ hw, Intn_pos _ _ hh, Intn_pos _ 5 (by decide), Res.bind]
    cases env.noiseDraw i with
    | some e => exact ⟨_, _, rfl⟩
    | none => exact ih _ _

theorem drawBGNoise_total (ci : CaptchaImage) (env : RenderEnv) (hw : 0 < ci.Width)
    (hh : 0 < ci.Height) (g : Rand) (noiseText : String) :
    ∃ e g', ci.drawBGNoise env g noiseText = Res.ok (e, g') := by
  unfold CaptchaImage.drawBGNoise
  simp only [Intn_pos _ 7 (by decide), Res.bind]
  cases CaptchaImage.setFonts env 0 with
  | some e => exact ⟨_, _, rfl⟩
  | none => exact noiseLoop_total ci env hw hh _ _ _

theorem EncodeB64string_ne_empty (env : RenderEnv) (buf : List Nat) :
    CaptchaImage.EncodeB64string env buf ≠ "" := by
  intro h
  have hlen := congrArg String.length h
  unfold CaptchaImage.EncodeB64string at hlen
  simp only [String.length_append] at hlen
  have h5 : "data:".length = 5 := by decide
  have h0 : "".length = 0 := by decide
  omega

theorem drawImageText_total (ci : CaptchaImage) (env : RenderEnv) (hw : 0 < ci.Width)
    (hh : 0 < ci.Height) (g : Rand) (content : String) :
    ∃ dr, ci.drawImageText env g content = Res.ok dr ∧
      (dr.1.2 = none → dr.1.1 ≠ "") ∧ (dr.1.2 ≠ none → dr.1.1 = "") := by
  obtain ⟨col, g1, hcol⟩ := setRandColor_full_range g
  obtain ⟨e, g2, hnz⟩ := drawBGNoise_total ci env hw hh g1 noisetext
  unfold CaptchaImage.drawImageText
  simp only [hcol, hnz, Res.bind]
  cases e with
  | some e => exact ⟨_, rfl, by simp, by simp⟩
  | none =>
    simp only
    cases CaptchaImage.setFonts env 1 with
    | some e => exact ⟨_, rfl, by simp, by simp⟩
    | none =>
      simp only
      cases textLoop env content.data 0 with
      | some e => exact ⟨_, rfl, by simp, by simp⟩
      | none =>
        simp only
        cases env.pngEncode with
        | error e => exact ⟨_, rfl, by simp, by simp⟩
        | ok buf =>
          exact ⟨_, rfl, fun _ => EncodeB64string_ne_empty env buf, by simp⟩

theorem GenerateCaptcha_eq {σ : Type} (S : Storer σ) (c : Captcha) (env : RenderEnv)
    (g : Rand) (st : σ) :
    ∃ code g1 dr,
      c.setCode g = Res.ok ({ c with Code := code }, g1) ∧
      CaptchaImage.drawImageText (NewCaptchaImage W H c.Len) env g1 code = Res.ok dr ∧
      (dr.1.2 = none → dr.1.1 ≠ "") ∧
      c.GenerateCaptcha S env g st = Res.ok
        (match dr.1.2 with
          | some e => ⟨"", "", some e, { c with Code := code }, dr.2, st⟩
          | none =>
            match S.Save st c.Cid { c with Code := code } with
            | (some e, st1) => ⟨"", "", some e, { c with Code := code }, dr.2, st1⟩
            | (none, st1) => ⟨c.Cid, dr.1.1, none, { c with Code := code }, dr.2, st1⟩) := by
  obtain ⟨code, g1, hcode⟩ := getRandString_total g c.Len
  have hset : c.setCode g = Res.ok ({ c with Code := code }, g1) := by
    unfold Captcha.setCode
    rw [hcode]
    rfl
  obtain ⟨dr, hdr, hne, _⟩ := drawImageText_total (NewCaptchaImage W H c.Len) env
    (show (0 : Int) < 120 by decide) (show (0 : Int) < 80 by decide) g1 code
  refine ⟨code, g1, dr, hset, hdr, hne, ?_⟩
  unfold Captcha.GenerateCaptcha
  simp only [hset, Res.bind, hdr]
  cases dr.1.2 with
  | some e => rfl
  | none =>
    simp only
    rcases S.Save st c.Cid { c with Code := code } with ⟨e, st1⟩
    cases e <;> rfl

theorem UUID_str_ne_empty (u : UUID) : u.str ≠ "" := by
  intro h
  have := u.len
  rw [h] at this
  exact absurd this (by decide)

/-- Claim C8: `GenerateCaptcha` on a captcha made by `NewCaptcha`, for
every store and every outcome of rendering and of `Save`, returns without
a panic; it returns a nil error with a non-empty id and a non-empty image
string exactly when rendering succeeded and `Save` succeeded; when
rendering fails the store is left as it was (no `Save`) and the error is
the rendering error; when `Save` fails the returned id and image string
are empty and the error is non-nil. -/
theorem GenerateCaptcha_all_or_nothing {σ : Type} (S : Storer σ) (L : Int) (u : UUID)
    (env : RenderEnv) (g : Rand) (st : σ) :
    ∃ (c1 : Captcha) (g1 : Rand) (dr : (String × Option Error) × Rand) (r : Issued σ),
      (NewCaptcha L u).setCode g = Res.ok (c1, g1) ∧
      CaptchaImage.drawImageText (NewCaptchaImage W H L) env g1 c1.Code = Res.ok dr ∧
      (NewCaptcha L u).GenerateCaptcha S env g st = Res.ok r ∧
      ((r.err = none ∧ r.id ≠ "" ∧ r.b64s ≠ "") ↔
        (dr.1.2 = none ∧ (S.Save st c1.Cid c1).1 = none)) ∧
      (dr.1.2 ≠ none → r.store = st ∧ r.err = dr.1.2 ∧ r.id = "" ∧ r.b64s = "") ∧
      (dr.1.2 = none → (S.Save st c1.Cid c1).1 ≠ none →
        r.err = (S.Save st c1.Cid c1).1 ∧ r.id = "" ∧ r.b64s = "") ∧
      (dr.1.2 = none → (S.Save st c1.Cid c1).1 = none →
        r.id = u.str ∧ r.b64s = dr.1.1 ∧ r.store = (S.Save st c1.Cid c1).2) := by
  obtain ⟨code, g1, dr, hset, hdr, hne, hgen⟩ := GenerateCaptcha_eq S (NewCaptcha L u) env g st
  refine ⟨_, g1, dr, _, hset, hdr, hgen, ?_⟩
  have hu := UUID_str_ne_empty u
  rcases dr with ⟨⟨b64, e⟩, g2⟩
  cases e with
  | some e => simp
  | none =>
    have hb : b64 ≠ "" := hne rfl
    simp only
    rcases hsave : S.Save st (NewCaptcha L u).Cid { NewCaptcha L u with Code := code }
      with ⟨e2, st1⟩
    cases e2 with
    | some e2 => simp
    | none => simp [hb, NewCaptcha, hu]

/-- Claim C8 at three runs: rendering and `Save` succeed; the font file is
missing; `Save` fails. -/
theorem GenerateCaptcha_all_or_nothing_witness :
    (∃ r, (NewCaptcha 4 uuid0).GenerateCaptcha memoryStorer envOk rand0 MemoryStoreMode
        = Res.ok r) ∧
    (∃ r, (NewCaptcha 4 uuid0).GenerateCaptcha memoryStorer envNoFont rand0 MemoryStoreMode
        = Res.ok r) ∧
    (∃ r, (NewCaptcha 4 uuid0).GenerateCaptcha failingStorer envOk rand0 ()
        = Res.ok r) :=
  ⟨(GenerateCaptcha_all_or_nothing memoryStorer 4 uuid0 envOk rand0 MemoryStoreMode).elim
      fun _ h => h.elim fun _ h => h.elim fun _ h => h.elim fun r h => ⟨r, h.2.2.1⟩,
    (GenerateCaptcha_all_or_nothing memoryStorer 4 uuid0 envNoFont rand0 MemoryStoreMode).elim
      fun _ h => h.elim fun _ h => h.elim fun _ h => h.elim fun r h => ⟨r, h.2.2.1⟩,
    (GenerateCaptcha_all_or_nothing failingStorer 4 uuid0 envOk rand0 ()).elim
      fun _ h => h.elim fun _ h => h.elim fun _ h => h.elim fun r h => ⟨r, h.2.2.1⟩⟩

theorem Time_Sub_zero_gt (now E : Int) (hE : E < maxDuration) (hnow : E < now) :
    Time.Sub now 0 > E := by
  unfold Time.Sub
  unfold maxDuration at hE
  simp only [maxDuration, minDuration]
  split
  · omega
  · split <;> omega

theorem VerifyCaptcha_zero_start (m : MemoryStore) (id code : String) (c : Captcha)
    (now : Int) (hstart : c.StartTime = 0) (hexp : Time.Sub now 0 > m.Expiration) :
    (Captcha.VerifyCaptcha memoryStorer (m.Save id c).2 id code now).1 = false := by
  rw [VerifyCaptcha_fst]
  cases hb : ((m.Save id c).2.Verify id code now).1 with
  | false => rfl
  | true =>
    obtain ⟨_, _, c', hc', hle, _⟩ := (Verify_fst_eq_true_iff _ id code now).mp hb
    have hcc : c' = c := by
      simp [MemoryStore.Save, mapSet] at hc'
      exact hc'.symm
    rw [hcc, hstart] at hle
    have hE : (m.Save id c).2.Expiration = m.Expiration := rfl
    rw [hE] at hle
    exact absurd hexp (not_lt.mpr hle)

theorem issueThenVerify_memory_rejects (m : MemoryStore) (L : Int) (u : UUID)
    (env : RenderEnv) (g : Rand) (now : Int)
    (hE : m.Expiration < maxDuration) (hnow : m.Expiration < now) :
    issueThenVerify memoryStorer (NewCaptcha L u) env g m now = Res.ok none ∨
      issueThenVerify memoryStorer (NewCaptcha L u) env g m now = Res.ok (some false) := by
  obtain ⟨code, g1, dr, _, _, _, hgen⟩ := GenerateCaptcha_eq memoryStorer (NewCaptcha L u) env g m
  unfold issueThenVerify
  rw [hgen]
  rcases dr with ⟨⟨b64, e⟩, g2⟩
  cases e with
  | some e =>
    left
    rfl
  | none =>
    right
    have h := VerifyCaptcha_zero_start m (NewCaptcha L u).Cid code
      { NewCaptcha L u with Code := code } now rfl (Time_Sub_zero_gt now _ hE hnow)
    simp only [Res.bind, memoryStorer, MemoryStore.Save] at h ⊢
    rw [h]

/-- Claim C1, the code at the failing input: a challenge of length 4 is
issued on the default store `MemoryStoreMode` with every rendering step
succeeding, and the generated code is submitted for the returned id on
4 November 2026; issuance reports no error and `VerifyCaptcha` returns
false.  `GenerateCaptcha` stores the challenge with the zero `StartTime`. -/
theorem issue_then_verify_default_store_false :
    issueThenVerify memoryStorer (NewCaptcha 4 uuid0) envOk rand0 MemoryStoreMode now2026
      = Res.ok (some false) := by
  decide

/-! ## Two concurrent verifications -/

theorem solo_run_agrees (m : MemoryStore) (a b : Call) :
    (Sys.run a b [false, false, false, false, false] (Sys.init m)).pcA
        = Pc.done (Captcha.VerifyCaptcha memoryStorer m a.id a.code a.now).1 ∧
      (Sys.run a b [false, false, false, false, false] (Sys.init m)).store.Value
        = (Captcha.VerifyCaptcha memoryStorer m a.id a.code a.now).2.Value := by
  simp only [Sys.run, Sys.step, Sys.init, Captcha.VerifyCaptcha, memoryStorer,
    MemoryStore.Verify, MemoryStore.Get]
  by_cases hi : a.id = ""
  · simp [stepCall, hi]
  by_cases ha : a.code = ""
  · simp [stepCall, ha]
  cases hv : m.Value a.id with
  | none => simp [stepCall, hi, ha, MemoryStore.Get, hv]
  | some c =>
    by_cases hexp : Time.Sub a.now c.StartTime > m.Expiration
    · simp [stepCall, hi, ha, MemoryStore.Get, hv, hexp]
    · by_cases hc2 : c.Code = a.code
      · simp [stepCall, hi, ha, MemoryStore.Get, hv, hexp, hc2]
      · simp [stepCall, hi, ha, MemoryStore.Get, hv, hexp, hc2]

/-- Claim C9, the code at the failing schedule: two calls
`VerifyCaptcha("id1", "xY7k")` run on a store holding that live challenge.
The first call runs up to the return of `Verify`, then the second call
does the same, then each runs `Remove`: both calls return true.  In the
schedule that stops the second call right after its `Lock`, the first
call runs `Remove` and deletes the entry while the second call holds the
mutex. -/
theorem concurrent_VerifyCaptcha_both_true :
    (Sys.run ⟨"id1", "xY7k", now2026 + 5⟩ ⟨"id1", "xY7k", now2026 + 6⟩
        [false, false, false, false, true, true, true, true, false, true]
        (Sys.init storeLive)).pcA = Pc.done true ∧
    (Sys.run ⟨"id1", "xY7k", now2026 + 5⟩ ⟨"id1", "xY7k", now2026 + 6⟩
        [false, false, false, false, true, true, true, true, false, true]
        (Sys.init storeLive)).pcB = Pc.done true ∧
    (Sys.run ⟨"id1", "xY7k", now2026 + 5⟩ ⟨"id1", "xY7k", now2026 + 6⟩
        [false, false, false, false, true, true]
        (Sys.init storeLive)).mutex = some true ∧
    (Sys.run ⟨"id1", "xY7k", now2026 + 5⟩ ⟨"id1", "xY7k", now2026 + 6⟩
        [false, false, false, false, true, true]
        (Sys.init storeLive)).store.Value "id1" = some (challenge "id1" "xY7k" now2026) ∧
    (Sys.run ⟨"id1", "xY7k", now2026 + 5⟩ ⟨"id1", "xY7k", now2026 + 6⟩
        [false, false, false, false, true, true, false]
        (Sys.init storeLive)).mutex = some true ∧
    (Sys.run ⟨"id1", "xY7k", now2026 + 5⟩ ⟨"id1", "xY7k", now2026 + 6⟩
        [false, false, false, false, true, true, false]
        (Sys.init storeLive)).store.Value "id1" = none := by
  decide

end captcha
